import Mathlib

/-!
Shallow embedding of the equity-aware microgrid optimization core
(dispatch simulator, objective evaluators, constraint validator,
convergence callback, data cache) over exact rational arithmetic,
together with theorems settling the specification claims.

Sources embedded:
* `src/simulation/system_simulator_fast.py` (`simulate_system_fast`)
* `src/objectives/objective_functions.py`
* `src/constraints/constraint_functions*.py`, `constraint_validator.py`
* `src/callbacks/nsga3_callback_fast.py` (`NSGA3ProgressCallbackFast.notify`)
* `src/simulation/data_cache.py` (`DataCache`)

Python floats are modelled as `ℚ`; fallible evaluator functions are
modelled as `Except String ℚ` (the Python bodies contain no `raise`
statement, so every branch of the embedding returns `.ok`).
-/

namespace Microgrid

/-- The four continuous decision variables of a candidate system
(`decision_vars` dict keys in `simulate_system_fast`). -/
structure DecisionVars where
  n_pv_kw : ℚ
  n_wind_mw : ℚ
  e_battery_mwh : ℚ
  p_diesel_mw : ℚ
deriving Repr, DecidableEq

/-- The technology parameters of `system_config` that the hourly dispatch
loop of `simulate_system_fast` reads. -/
structure SimConfig where
  battery_efficiency : ℚ
  battery_c_rate : ℚ
  battery_dod_max : ℚ
  diesel_efficiency : ℚ
deriving Repr, DecidableEq

/-- One hour of the input profile arrays (`load_mw`, `solar_cf`,
`wind_cf`, `temperature_c`). -/
structure HourData where
  load_mw : ℚ
  solar_cf : ℚ
  wind_cf : ℚ
  temperature_c : ℚ
deriving Repr, DecidableEq

/-- One hour of the dispatch trace: the per-hour output arrays of
`simulate_system_fast` at index `t`, plus the post-hour state of charge. -/
structure HourResult where
  battery_charge_mw : ℚ
  battery_discharge_mw : ℚ
  diesel_gen_mw : ℚ
  diesel_fuel_mmbtu : ℚ
  deficit_mw : ℚ
  soc : ℚ
deriving Repr, DecidableEq

/-- PV generation for one hour:
`max((pv_kw/1000) * solar_cf * (1 + temp_coeff*(T - 25)), 0)` with
`temp_coeff = -0.004` (lines 37-39 of `system_simulator_fast.py`). -/
def pvGen (pv_kw : ℚ) (h : HourData) : ℚ :=
  max (pv_kw / 1000 * h.solar_cf * (1 + -(4 / 1000) * (h.temperature_c - 25))) 0

/-- Wind generation for one hour: `wind_mw * wind_cf` (line 41; note the
source does not clamp this at zero). -/
def windGen (wind_mw : ℚ) (h : HourData) : ℚ :=
  wind_mw * h.wind_cf

/-- Renewable generation `pv_gen_mw + wind_gen_mw` for one hour. -/
def renewableGen (dv : DecisionVars) (h : HourData) : ℚ :=
  pvGen dv.n_pv_kw h + windGen dv.n_wind_mw h

/-- `battery_p_max = battery_mwh * battery_c_rate` when `battery_mwh > 0`,
else `0` (lines 45-52). -/
def batteryPMax (dv : DecisionVars) (cfg : SimConfig) : ℚ :=
  if dv.e_battery_mwh > 0 then dv.e_battery_mwh * cfg.battery_c_rate else 0

/-- `soc_min = 1 - battery_dod_max` when `battery_mwh > 0`, else `0`
(lines 45-52). -/
def socMin (dv : DecisionVars) (cfg : SimConfig) : ℚ :=
  if dv.e_battery_mwh > 0 then 1 - cfg.battery_dod_max else 0

/-- One iteration of the hourly dispatch loop of `simulate_system_fast`
(lines 64-103): greedy merit order renewables → battery → diesel → deficit,
taking the pre-hour state of charge and returning the hour's trace entry
(whose `soc` field is the post-hour state of charge `soc[t]`). -/
def simStep (dv : DecisionVars) (cfg : SimConfig) (soc : ℚ) (h : HourData) : HourResult :=
  let load_t := h.load_mw
  let re_t := renewableGen dv h
  if re_t ≥ load_t then
    let excess := re_t - load_t
    if dv.e_battery_mwh > 0 ∧ soc < 1 then
      let charge_capacity :=
        min (batteryPMax dv cfg) ((1 - soc) * dv.e_battery_mwh / cfg.battery_efficiency)
      let actual_charge := min excess charge_capacity
      let soc1 := min (soc + actual_charge * cfg.battery_efficiency / dv.e_battery_mwh) 1
      ⟨actual_charge, 0, 0, 0, 0, soc1⟩
    else
      ⟨0, 0, 0, 0, 0, soc⟩
  else
    let shortfall0 := load_t - re_t
    let dis :=
      if dv.e_battery_mwh > 0 ∧ soc > socMin dv cfg then
        let available_energy := (soc - socMin dv cfg) * dv.e_battery_mwh
        let discharge_capacity := min (batteryPMax dv cfg) available_energy
        min shortfall0 discharge_capacity
      else 0
    let soc1 :=
      if dv.e_battery_mwh > 0 ∧ soc > socMin dv cfg then
        max (soc - dis / dv.e_battery_mwh) (socMin dv cfg)
      else soc
    let shortfall1 := shortfall0 - dis
    let diesel_out :=
      if shortfall1 > 0 ∧ dv.p_diesel_mw > 0 then min shortfall1 dv.p_diesel_mw else 0
    let fuel :=
      if shortfall1 > 0 ∧ dv.p_diesel_mw > 0 then
        diesel_out * (3412 / 1000 / cfg.diesel_efficiency)
      else 0
    let shortfall2 := shortfall1 - diesel_out
    let deficit := if shortfall2 > 0 then shortfall2 else 0
    ⟨0, dis, diesel_out, fuel, deficit, soc1⟩

/-- The sequential pass over the profile, threading the state of charge
(the only cross-hour state, line 62 and 103). -/
def simulate (dv : DecisionVars) (cfg : SimConfig) : ℚ → List HourData → List HourResult
  | _, [] => []
  | soc, h :: rest =>
    let r := simStep dv cfg soc h
    r :: simulate dv cfg r.soc rest

/-- The full dispatch trace produced by `simulate_system_fast`, starting
from `current_soc = 0.5` (line 62). -/
def simTrace (dv : DecisionVars) (cfg : SimConfig) (profile : List HourData) : List HourResult :=
  simulate dv cfg (1 / 2) profile

/-- `total_load_mwh = load_mw.sum()` (line 105). -/
def totalLoad (profile : List HourData) : ℚ :=
  (profile.map HourData.load_mw).sum

/-- `total_deficit_mwh = deficit_mw.sum()` (line 110). -/
def totalDeficit (trace : List HourResult) : ℚ :=
  (trace.map HourResult.deficit_mw).sum

/-- The LPSP value computed inline by `simulate_system_fast` (line 141):
`total_deficit_mwh / total_load_mwh if total_load_mwh > 0 else 0.0`. -/
def lpspValue (dv : DecisionVars) (cfg : SimConfig) (profile : List HourData) : ℚ :=
  if totalLoad profile > 0 then totalDeficit (simTrace dv cfg profile) / totalLoad profile
  else 0

/-- Curtailed surplus of one hour, derived from the trace: the part of the
renewable surplus not absorbed by the battery. The source discards this
quantity ("not tracked beyond the hour"); it is the exact correction term
of the hourly energy balance. -/
def curtailed (dv : DecisionVars) (h : HourData) (r : HourResult) : ℚ :=
  max (renewableGen dv h - h.load_mw - r.battery_charge_mw) 0

/-! ### Objective evaluators (`objective_functions.py`)

Each evaluator is modelled as `Except String ℚ`: a Python function either
returns a value or raises. The bodies below mirror the sources line by
line; none of them contains a `raise`, so every branch produces `.ok`. -/

/-- The `system` dict fields read by `objective_npc`. `replacement_year`
is a count of years; the Python `if replacement_cost and replacement_year:`
truthiness test treats both `None` and `0` as absent, which the `ℕ` value
`0` models. -/
structure NpcSystem where
  capital_cost_usd : ℚ
  fuel_cost_annual_usd : ℚ
  om_cost_annual_usd : ℚ
  replacement_cost_usd : ℚ
  replacement_year : ℕ
  discount_rate : ℚ
  lifetime_years : ℕ
deriving Repr, DecidableEq

/-- `objective_npc` (lines 3-28 of `objective_functions.py`):
present-worth-factor discounting of annual fuel and O&M costs plus a
discounted battery replacement, gated by the Python truthiness test
`if replacement_cost and replacement_year:`. -/
def objective_npc (s : NpcSystem) : Except String ℚ :=
  let pwf : ℚ :=
    if s.discount_rate = 0 then (s.lifetime_years : ℚ)
    else (1 - (1 + s.discount_rate) ^ (-(s.lifetime_years : ℤ))) / s.discount_rate
  let pv_fuel := s.fuel_cost_annual_usd * pwf
  let pv_om := s.om_cost_annual_usd * pwf
  let pv_replacement : ℚ :=
    if s.replacement_cost_usd ≠ 0 ∧ s.replacement_year ≠ 0 then
      s.replacement_cost_usd / (1 + s.discount_rate) ^ s.replacement_year
    else 0
  .ok (s.capital_cost_usd + pv_fuel + pv_om + pv_replacement)

/-- The claim's NPC formula, written from the spec sentence:
`capital + fuel_annual*PWF + om_annual*PWF +
replacement_cost/(1+r)^replacement_year` with
`PWF = (1-(1+r)^-L)/r` (or `L` if `r = 0`), with no truthiness gate on the
replacement term. -/
def npcSpecFormula (s : NpcSystem) : ℚ :=
  let pwf : ℚ :=
    if s.discount_rate = 0 then (s.lifetime_years : ℚ)
    else (1 - (1 + s.discount_rate) ^ (-(s.lifetime_years : ℤ))) / s.discount_rate
  s.capital_cost_usd + s.fuel_cost_annual_usd * pwf + s.om_cost_annual_usd * pwf +
    s.replacement_cost_usd / (1 + s.discount_rate) ^ s.replacement_year

/-- The `dispatch_results` fields read by `objective_lpsp`. -/
structure DispatchResults where
  total_deficit_mwh : ℚ
  total_load_mwh : ℚ
deriving Repr, DecidableEq

/-- `objective_lpsp` (lines 30-40): returns `0` when the total load is
exactly `0`, otherwise the raw ratio `total_deficit / total_load` with no
clamping. -/
def objective_lpsp (d : DispatchResults) : Except String ℚ :=
  if d.total_load_mwh = 0 then .ok 0
  else .ok (d.total_deficit_mwh / d.total_load_mwh)

/-- Rank-weighted sum `Σ i*sorted_value[i-1]` (1-based ranks) appearing in
the Gini formula. -/
def rankWeightedSum (l : List ℚ) : ℚ :=
  (l.enum.map fun p => ((p.1 + 1 : ℕ) : ℚ) * p.2).sum

/-- `objective_gini_theja` (lines 153-192): the household capture
multipliers (a seeded numpy draw of length `n_households`) are supplied as
the `capture` argument; everything after the draw mirrors the source.
`np.sort` is modelled by an insertion sort on `≤`; numpy's non-raising
elementwise division is modelled by rational division. -/
def objective_gini_theja (capture : List ℚ) (n_households : ℕ)
    (total_re_mwh total_load_mwh : ℚ) : Except String ℚ :=
  let re_frac : ℚ := if total_load_mwh > 0 then total_re_mwh / total_load_mwh else 0
  let scarcity : ℚ := min (max (1 - re_frac) 0) 1
  let effective_weight := capture.map fun c => 1 + scarcity * (c - 1)
  let wsum := effective_weight.sum
  let allocation_shares := effective_weight.map fun w => w / wsum
  let benefit := allocation_shares.map fun a =>
    min (max ((n_households : ℚ) * re_frac * a) 0) 1
  let bsum := benefit.sum
  if bsum = 0 then .ok 1
  else
    let n := benefit.length
    let sorted_benefit := benefit.insertionSort (· ≤ ·)
    let gini := (2 * rankWeightedSum sorted_benefit - ((n : ℚ) + 1) * bsum) / ((n : ℚ) * bsum)
    .ok (max 0 (min gini 1))

/-! ### Constraint validator (`constraint_validator.py` and the
`constraint_functions*.py` family it resolves to) -/

/-- The fields of the `x` dict that `validate_solution` reads (the
decision variables merged with the derived entries built at lines 163-173
of `system_simulator_fast.py`). -/
structure XVars where
  n_pv_kw : ℚ
  n_wind_mw : ℚ
  e_battery_mwh : ℚ
  p_diesel_mw : ℚ
  p_diesel_online_mw : ℚ
  p_battery_discharge_mw : ℚ
  p_load_avg_mw : ℚ
  p_pv_installed_kw : ℚ
  p_wind_installed_mw : ℚ
  p_grid_buy_mw : ℚ
  p_grid_sell_mw : ℚ
  grid_connected : Bool
deriving Repr, DecidableEq

/-- Box bounds for the four decision variables. -/
structure BoundsCfg where
  n_pv_kw : ℚ × ℚ
  n_wind_mw : ℚ × ℚ
  e_battery_mwh : ℚ × ℚ
  p_diesel_mw : ℚ × ℚ
deriving Repr, DecidableEq

/-- Under/overshoot of one variable against its `(lower, upper)` box. -/
def boundViol (v : ℚ) (b : ℚ × ℚ) : ℚ :=
  (if v < b.1 then |v - b.1| else 0) + (if v > b.2 then |v - b.2| else 0)

/-- `constraint_bounds` (`constraint_functions.py` lines 1-17), summed
over the four decision variables (all four are present in `x`). -/
def constraint_bounds (x : XVars) (bounds : BoundsCfg) : ℚ :=
  boundViol x.n_pv_kw bounds.n_pv_kw + boundViol x.n_wind_mw bounds.n_wind_mw +
    boundViol x.e_battery_mwh bounds.e_battery_mwh + boundViol x.p_diesel_mw bounds.p_diesel_mw

/-- The `area_params` dict built at lines 182-188 of
`system_simulator_fast.py` (it carries no `area_wind_remote_m2` key, so
`validate_solution` takes the `constraint_area_v6` branch). -/
structure AreaParams where
  area_pv_per_kw : ℚ
  area_wind_per_mw : ℚ
  area_battery_per_mwh : ℚ
  area_available_pv_m2 : ℚ
  area_available_wind_m2 : ℚ
deriving Repr, DecidableEq

/-- `constraint_area_v6` (`constraint_functions_v6.py` lines 14-37) with
its default `use_separated_areas=True`: PV+battery against the PV-zone
budget and wind against the wind-zone budget, summed. -/
def constraint_area_v6 (x : XVars) (a : AreaParams) : ℚ :=
  let area_pv := x.n_pv_kw * a.area_pv_per_kw
  let area_wind := x.n_wind_mw * a.area_wind_per_mw
  let area_battery := x.e_battery_mwh * a.area_battery_per_mwh
  max (area_pv + area_battery - a.area_available_pv_m2) 0 +
    max (area_wind - a.area_available_wind_m2) 0

/-- `constraint_lpsp` (`constraint_functions.py` lines 32-38). -/
def constraint_lpsp (lpsp lpsp_limit : ℚ) : ℚ :=
  max (lpsp - lpsp_limit) 0

/-- `constraint_spinning_reserve` (`constraint_functions.py` lines 40-52). -/
def constraint_spinning_reserve (p_diesel_online p_battery_discharge p_load_avg
    reserve_fraction : ℚ) : ℚ :=
  max (reserve_fraction * p_load_avg - (p_diesel_online + p_battery_discharge - p_load_avg)) 0

/-- The `grid_limits` dict. -/
structure GridLimits where
  p_max_import_mw : ℚ
  p_max_export_mw : ℚ
deriving Repr, DecidableEq

/-- `constraint_grid_limits` (`constraint_functions.py` lines 54-67). -/
def constraint_grid_limits (p_grid_buy p_grid_sell : ℚ) (g : GridLimits) : ℚ :=
  max (p_grid_buy - g.p_max_import_mw) 0 + max (p_grid_sell - g.p_max_export_mw) 0

/-- The `system` dict fields read by `constraint_renewable_cap_v4`. -/
structure RenewableSys where
  p_pv_installed_kw : ℚ
  p_wind_installed_mw : ℚ
  p_load_avg_mw : ℚ
deriving Repr, DecidableEq

/-- The `policy` dict. -/
structure Policy where
  renewable_fraction_max : ℚ
deriving Repr, DecidableEq

/-- `constraint_renewable_cap_v4` (`constraint_functions_v4.py` lines
14-29): returns `0` immediately unless `enable_renewable_cap` is passed as
true; its default is `False`. -/
def constraint_renewable_cap_v4 (system : RenewableSys) (policy : Policy)
    (enable_renewable_cap : Bool := false) : ℚ :=
  if !enable_renewable_cap then 0
  else
    max (system.p_pv_installed_kw / 1000 + system.p_wind_installed_mw -
      policy.renewable_fraction_max * system.p_load_avg_mw) 0

/-- The six violation magnitudes returned by `validate_solution`. -/
structure Violations where
  bounds : ℚ
  area : ℚ
  lpsp : ℚ
  spinning_reserve : ℚ
  grid_limits : ℚ
  renewable_cap : ℚ
deriving Repr, DecidableEq

/-- `calculate_total_violation` (`constraint_validator.py` lines 59-63):
`Σ max(v, 0)` over the six violation entries. -/
def calculate_total_violation (v : Violations) : ℚ :=
  max v.bounds 0 + max v.area 0 + max v.lpsp 0 + max v.spinning_reserve 0 +
    max v.grid_limits 0 + max v.renewable_cap 0

/-- `validate_solution` (`constraint_validator.py` lines 16-57): assembles
the six violations — calling `constraint_renewable_cap_v4` with only two
arguments, so its `enable_renewable_cap` default `False` applies — and
returns `(is_feasible, total_cv, violations)`. -/
def validate_solution (x : XVars) (bounds : BoundsCfg) (area_params : AreaParams)
    (simulation_lpsp : ℚ) (policy : Policy) (grid_limits : GridLimits)
    (reserve_fraction lpsp_limit : ℚ) (tolerance : ℚ := 1 / 1000000) :
    Bool × ℚ × Violations :=
  let v : Violations :=
    { bounds := constraint_bounds x bounds
      area := constraint_area_v6 x area_params
      lpsp := constraint_lpsp simulation_lpsp lpsp_limit
      spinning_reserve := constraint_spinning_reserve x.p_diesel_online_mw
        x.p_battery_discharge_mw x.p_load_avg_mw reserve_fraction
      grid_limits := constraint_grid_limits x.p_grid_buy_mw x.p_grid_sell_mw grid_limits
      renewable_cap := constraint_renewable_cap_v4
        ⟨x.p_pv_installed_kw, x.p_wind_installed_mw, x.p_load_avg_mw⟩ policy }
  let total_cv := calculate_total_violation v
  (decide (total_cv ≤ tolerance), total_cv, v)

/-! ### Convergence callback (`nsga3_callback_fast.py`) -/

/-- The stagnation-tracking state of `NSGA3ProgressCallbackFast`:
`best_hv` (initialised to `0.0`) and `best_hv_gen` (initialised to `0`). -/
structure CbState where
  best_hv : ℚ
  best_hv_gen : ℕ
deriving Repr, DecidableEq

/-- One `notify` call (lines 37-84) at generation `gen` observing
hypervolume `hv`: the best hypervolume is updated exactly when
`hv > best_hv * (1 + stagnation_tolerance)`, and `EarlyStopException` is
raised exactly when `gen - best_hv_gen >= stagnation_generations`
(evaluated after the update). Returns the new state and the stop flag. -/
def notifyStep (stagnation_generations : ℕ) (tol : ℚ) (s : CbState) (gen : ℕ)
    (hv : ℚ) : CbState × Bool :=
  let s1 := if hv > s.best_hv * (1 + tol) then CbState.mk hv gen else s
  (s1, decide (gen - s1.best_hv_gen ≥ stagnation_generations))

/-- Feeding a per-generation hypervolume sequence to the callback starting
at generation `gen` in state `s`; returns the generation at which the
early-stop exception is raised, or `none` if the sequence ends first. -/
def runFrom (stagnation_generations : ℕ) (tol : ℚ) :
    CbState → ℕ → List ℚ → Option ℕ
  | _, _, [] => none
  | s, gen, hv :: rest =>
    let sb := notifyStep stagnation_generations tol s gen hv
    if sb.2 then some gen
    else runFrom stagnation_generations tol sb.1 (gen + 1) rest

/-- The generation (numbered from 1, following pymoo's `n_gen`) at which a
fresh callback fed the hypervolume sequence `hvs` emits the
early-termination signal. -/
def stopGeneration (stagnation_generations : ℕ) (tol : ℚ) (hvs : List ℚ) : Option ℕ :=
  runFrom stagnation_generations tol ⟨0, 0⟩ 1 hvs

/-! ### Data cache (`data_cache.py`) -/

/-- The three profile paths `DataCache.initialize` reads from
`system_config`. -/
structure DCConfig where
  load_profile_path : String
  solar_cf_path : String
  wind_cf_path : String
deriving Repr, DecidableEq

/-- The filesystem, abstracted: the column contents of the CSV file at a
given path (`Load_MW`; `CF_pv` with `T_ambient_C`; `CF_wind`). -/
structure DataEnv where
  loadCsv : String → List ℚ
  solarCsv : String → List ℚ × List ℚ
  windCsv : String → List ℚ

/-- The cached arrays and configuration hash of the `DataCache` object.
Python's `hash(str(load_profile_path))` is modelled by the path string
itself (equal paths give equal hashes, which is the property the guard
relies on). -/
structure DataCache where
  load_mw : Option (List ℚ)
  solar_cf : Option (List ℚ)
  wind_cf : Option (List ℚ)
  temperature_c : Option (List ℚ)
  config_hash : Option String
deriving DecidableEq

/-- `DataCache.initialize` (`data_cache.py` lines 26-45): skip the reload
when the stored hash matches the configuration's `load_profile_path` hash
and `load_mw` is already populated; otherwise load all four arrays and
store the new hash. (Named `init` because `initialize` is a Lean keyword.) -/
def DataCache.init (env : DataEnv) (cfg : DCConfig) (s : DataCache) : DataCache :=
  let config_hash := cfg.load_profile_path
  if s.config_hash = some config_hash ∧ s.load_mw ≠ none then s
  else
    { load_mw := some (env.loadCsv cfg.load_profile_path)
      solar_cf := some (env.solarCsv cfg.solar_cf_path).1
      temperature_c := some (env.solarCsv cfg.solar_cf_path).2
      wind_cf := some (env.windCsv cfg.wind_cf_path)
      config_hash := some config_hash }

/-! ## Helper lemmas about the hourly dispatch step -/

/-- Exact single-hour energy balance of the dispatch step: generation plus
battery discharge plus diesel, minus battery charging, plus the unserved
deficit, equals the load plus the curtailed surplus. -/
theorem simStep_balance (dv : DecisionVars) (cfg : SimConfig) (soc : ℚ) (h : HourData) :
    renewableGen dv h + (simStep dv cfg soc h).battery_discharge_mw +
      (simStep dv cfg soc h).diesel_gen_mw - (simStep dv cfg soc h).battery_charge_mw +
      (simStep dv cfg soc h).deficit_mw = h.load_mw + curtailed dv h (simStep dv cfg soc h) := by
  simp only [simStep]
  split_ifs with h1 h2 h3 h4 h5 h6 h7 h8 h9
  all_goals simp only [curtailed, renewableGen, min_def, max_def] at *
  all_goals split_ifs at * <;> linarith

/-- In a shortfall hour the battery is never charged. -/
theorem simStep_charge_shortfall (dv : DecisionVars) (cfg : SimConfig) (soc : ℚ)
    (h : HourData) (hs : ¬renewableGen dv h ≥ h.load_mw) :
    (simStep dv cfg soc h).battery_charge_mw = 0 := by
  simp only [simStep, if_neg hs]

/-- Every pair of the profile zipped with a simulation trace is an hour
together with the dispatch step applied to it at some state of charge. -/
theorem mem_zip_simulate (dv : DecisionVars) (cfg : SimConfig) :
    ∀ (profile : List HourData) (soc : ℚ) (p : HourData × HourResult),
      p ∈ profile.zip (simulate dv cfg soc profile) → ∃ s, p.2 = simStep dv cfg s p.1 := by
  intro profile
  induction profile with
  | nil => intro soc p hp; simp [simulate] at hp
  | cons h rest ih =>
    intro soc p hp
    simp only [simulate, List.zip_cons_cons, List.mem_cons] at hp
    rcases hp with hp | hp
    · exact ⟨soc, by rw [hp]⟩
    · exact ih _ p hp

/-! ## Claim C1 — hourly energy balance -/

/-- C1 (amended): for every hour of the trace produced by the dispatch
simulator, `pv + wind + battery_discharge + diesel − battery_charge +
deficit` equals `load` plus the curtailed surplus
`max(pv + wind − load − battery_charge, 0)`; the curtailed surplus is
nonnegative, and is zero in every shortfall hour (renewables below load),
so there the balance holds exactly. (The claim as stated subtracts
`deficit` instead of adding it and omits curtailment; both fail on the
code.) -/
theorem C1_energy_balance (dv : DecisionVars) (cfg : SimConfig) (profile : List HourData) :
    ∀ p ∈ profile.zip (simTrace dv cfg profile),
      renewableGen dv p.1 + p.2.battery_discharge_mw + p.2.diesel_gen_mw -
          p.2.battery_charge_mw + p.2.deficit_mw = p.1.load_mw + curtailed dv p.1 p.2 ∧
        0 ≤ curtailed dv p.1 p.2 ∧
        (renewableGen dv p.1 < p.1.load_mw → curtailed dv p.1 p.2 = 0) := by
  intro p hp
  obtain ⟨s, hs⟩ := mem_zip_simulate dv cfg profile (1 / 2) p hp
  refine ⟨?_, le_max_right _ _, ?_⟩
  · rw [hs]; exact simStep_balance dv cfg s p.1
  · intro hlt
    rw [hs, curtailed, simStep_charge_shortfall dv cfg s p.1 (not_le.mpr hlt), sub_zero]
    exact max_eq_right (by linarith)

/-- C1 counterexample to the claim as stated: with no generation assets
and a single 5 MW load hour, the trace records a 5 MW deficit, and
`pv + wind + battery_discharge + diesel − battery_charge − deficit = −5`,
which misses `load = 5` by 10, far beyond the 1e-6 tolerance. -/
theorem C1_energy_balance_counterexample :
    simTrace ⟨0, 0, 0, 0⟩ ⟨9 / 10, 1 / 4, 4 / 5, 2 / 5⟩ [⟨5, 0, 0, 0⟩] =
      [⟨0, 0, 0, 0, 5, 1 / 2⟩] ∧
    ¬|renewableGen ⟨0, 0, 0, 0⟩ ⟨5, 0, 0, 0⟩ + 0 + 0 - 0 - 5 - (5 : ℚ)| ≤ 1 / 1000000 := by
  constructor
  · norm_num [simTrace, simulate, simStep, renewableGen, pvGen, windGen, socMin, batteryPMax,
      min_def, max_def]
  · norm_num [renewableGen, pvGen, windGen, max_def, abs]

/-- C1 witness: the amended balance instantiated at the concrete
one-hour deficit scenario. -/
theorem C1_energy_balance_witness :
    (((⟨5, 0, 0, 0⟩ : HourData), (⟨0, 0, 0, 0, 5, 1 / 2⟩ : HourResult)) ∈
      ([⟨5, 0, 0, 0⟩] : List HourData).zip
        (simTrace ⟨0, 0, 0, 0⟩ ⟨9 / 10, 1 / 4, 4 / 5, 2 / 5⟩ [⟨5, 0, 0, 0⟩])) ∧
    renewableGen ⟨0, 0, 0, 0⟩ (⟨5, 0, 0, 0⟩ : HourData) +
        (⟨0, 0, 0, 0, 5, 1 / 2⟩ : HourResult).battery_discharge_mw +
        (⟨0, 0, 0, 0, 5, 1 / 2⟩ : HourResult).diesel_gen_mw -
        (⟨0, 0, 0, 0, 5, 1 / 2⟩ : HourResult).battery_charge_mw +
        (⟨0, 0, 0, 0, 5, 1 / 2⟩ : HourResult).deficit_mw =
      (⟨5, 0, 0, 0⟩ : HourData).load_mw +
        curtailed ⟨0, 0, 0, 0⟩ ⟨5, 0, 0, 0⟩ ⟨0, 0, 0, 0, 5, 1 / 2⟩ :=
  ⟨by norm_num [simTrace, simulate, simStep, renewableGen, pvGen, windGen, socMin, batteryPMax,
      min_def, max_def],
    (C1_energy_balance ⟨0, 0, 0, 0⟩ ⟨9 / 10, 1 / 4, 4 / 5, 2 / 5⟩ [⟨5, 0, 0, 0⟩]
      (⟨5, 0, 0, 0⟩, ⟨0, 0, 0, 0, 5, 1 / 2⟩)
      (by norm_num [simTrace, simulate, simStep, renewableGen, pvGen, windGen, socMin,
        batteryPMax, min_def, max_def])).1⟩

/-! ## Claim C2 — state-of-charge bounds -/

/-- The dispatch step preserves `socMin ≤ soc ≤ 1` for a physically
configured battery (positive capacity, nonnegative c-rate, positive
charging efficiency). -/
theorem simStep_soc_bounds (dv : DecisionVars) (cfg : SimConfig)
    (hb : 0 < dv.e_battery_mwh) (hc : 0 ≤ cfg.battery_c_rate)
    (he : 0 < cfg.battery_efficiency) (soc : ℚ) (h : HourData)
    (h1 : socMin dv cfg ≤ soc) (h2 : soc ≤ 1) :
    socMin dv cfg ≤ (simStep dv cfg soc h).soc ∧ (simStep dv cfg soc h).soc ≤ 1 := by
  have hpmax : 0 ≤ batteryPMax dv cfg := by
    rw [batteryPMax, if_pos hb]; exact mul_nonneg hb.le hc
  simp only [simStep, apply_ite HourResult.soc]
  split_ifs with hre hbat hdis
  · refine ⟨le_min ?_ (le_trans h1 h2), min_le_right _ _⟩
    have hx : 0 ≤ min (renewableGen dv h - h.load_mw)
        (min (batteryPMax dv cfg) ((1 - soc) * dv.e_battery_mwh / cfg.battery_efficiency)) *
          cfg.battery_efficiency / dv.e_battery_mwh := by
      apply div_nonneg _ hb.le
      apply mul_nonneg _ he.le
      exact le_min (by linarith)
        (le_min hpmax (div_nonneg (mul_nonneg (by linarith [hbat.2]) hb.le) he.le))
    linarith
  · exact ⟨h1, h2⟩
  · refine ⟨le_max_right _ _, max_le ?_ (le_trans h1 h2)⟩
    have hx : 0 ≤ min (h.load_mw - renewableGen dv h)
        (min (batteryPMax dv cfg) ((soc - socMin dv cfg) * dv.e_battery_mwh)) /
          dv.e_battery_mwh := by
      apply div_nonneg _ hb.le
      exact le_min (by linarith [not_le.mp hre])
        (le_min hpmax (mul_nonneg (by linarith [hdis.2]) hb.le))
    linarith
  · exact ⟨h1, h2⟩

/-- The `socMin ≤ soc ≤ 1` invariant propagates along the whole trace from
any initial state of charge inside the bounds. -/
theorem simulate_soc_bounds (dv : DecisionVars) (cfg : SimConfig)
    (hb : 0 < dv.e_battery_mwh) (hc : 0 ≤ cfg.battery_c_rate)
    (he : 0 < cfg.battery_efficiency) :
    ∀ (profile : List HourData) (soc : ℚ), socMin dv cfg ≤ soc → soc ≤ 1 →
      ∀ r ∈ simulate dv cfg soc profile, socMin dv cfg ≤ r.soc ∧ r.soc ≤ 1 := by
  intro profile
  induction profile with
  | nil => intro soc _ _ r hr; simp [simulate] at hr
  | cons h rest ih =>
    intro soc hs1 hs2 r hr
    simp only [simulate, List.mem_cons] at hr
    obtain ⟨g1, g2⟩ := simStep_soc_bounds dv cfg hb hc he soc h hs1 hs2
    rcases hr with rfl | hr
    · exact ⟨g1, g2⟩
    · exact ih _ g1 g2 r hr

/-- C2 (amended): for every decision vector with positive battery
capacity, every hourly profile, and every configuration with nonnegative
c-rate, positive charging efficiency and `battery_dod_max ≥ 0.5` (so that
the floor `1 − dod_max` does not exceed the initial state of charge 0.5 —
the repository's configurations use 0.8), every `soc` entry of the
dispatch trace lies exactly within `[1 − dod_max, 1]`. (As stated the
claim fails: for `dod_max < 0.5` the initial SOC 0.5 already sits below
the floor and is never clamped up.) -/
theorem C2_soc_bounds (dv : DecisionVars) (cfg : SimConfig) (profile : List HourData)
    (hb : 0 < dv.e_battery_mwh) (hc : 0 ≤ cfg.battery_c_rate)
    (he : 0 < cfg.battery_efficiency) (hd : 1 / 2 ≤ cfg.battery_dod_max) :
    ∀ r ∈ simTrace dv cfg profile, 1 - cfg.battery_dod_max ≤ r.soc ∧ r.soc ≤ 1 := by
  intro r hr
  have hsm : socMin dv cfg = 1 - cfg.battery_dod_max := by rw [socMin, if_pos hb]
  have hres := simulate_soc_bounds dv cfg hb hc he profile (1 / 2)
    (by rw [hsm]; linarith) (by norm_num) r hr
  rwa [hsm] at hres

/-- C2 counterexample to the claim as stated: with `battery_dod_max = 0.2`
(floor 0.8) and a positive 1 MWh battery, a single shortfall hour leaves
the state of charge at its initial 0.5, strictly below
`1 − dod_max − 1e-6`. -/
theorem C2_soc_bounds_counterexample :
    ∃ r ∈ simTrace ⟨0, 0, 1, 0⟩ ⟨9 / 10, 1 / 4, 1 / 5, 2 / 5⟩ [⟨5, 0, 0, 0⟩],
      ¬(1 - 1 / 5 - 1 / 1000000 ≤ r.soc) := by
  refine ⟨⟨0, 0, 0, 0, 5, 1 / 2⟩, ?_, by norm_num⟩
  norm_num [simTrace, simulate, simStep, renewableGen, pvGen, windGen, socMin, batteryPMax,
    min_def, max_def]

/-- C2 witness: the amended bounds instantiated at a concrete one-hour
discharge scenario with the repository's battery parameters. -/
theorem C2_soc_bounds_witness :
    (0 : ℚ) < 1 ∧ (0 : ℚ) ≤ 1 / 4 ∧ (0 : ℚ) < 9 / 10 ∧ (1 / 2 : ℚ) ≤ 4 / 5 ∧
      (1 - (4 / 5 : ℚ) ≤ 1 / 4 ∧ (1 / 4 : ℚ) ≤ 1) :=
  ⟨by norm_num, by norm_num, by norm_num, by norm_num,
    C2_soc_bounds ⟨0, 0, 1, 0⟩ ⟨9 / 10, 1 / 4, 4 / 5, 2 / 5⟩ [⟨5, 0, 0, 0⟩] (by norm_num)
      (by norm_num) (by norm_num) (by norm_num) ⟨0, 1 / 4, 0, 0, 19 / 4, 1 / 4⟩
      (by norm_num [simTrace, simulate, simStep, renewableGen, pvGen, windGen, socMin,
        batteryPMax, min_def, max_def])⟩

/-! ## Claim C3 — battery discharge in shortfall hours -/

/-- C3 (amended): in every shortfall hour (renewables below load) with a
positive battery at or above its SOC floor, the dispatch step sets the
battery discharge to exactly
`min(shortfall, min(discharge_power_limit, (soc − soc_min) × capacity))`.
(The claim as stated multiplies the stored-energy term by the discharge
efficiency; `simulate_system_fast` applies no efficiency on discharge.) -/
theorem C3_discharge_formula (dv : DecisionVars) (cfg : SimConfig) (soc : ℚ) (h : HourData)
    (hb : 0 < dv.e_battery_mwh) (hc : 0 ≤ cfg.battery_c_rate)
    (hsoc : socMin dv cfg ≤ soc) (hshort : renewableGen dv h < h.load_mw) :
    (simStep dv cfg soc h).battery_discharge_mw =
      min (h.load_mw - renewableGen dv h)
        (min (batteryPMax dv cfg) ((soc - socMin dv cfg) * dv.e_battery_mwh)) := by
  have hpmax : 0 ≤ batteryPMax dv cfg := by
    rw [batteryPMax, if_pos hb]; exact mul_nonneg hb.le hc
  simp only [simStep, apply_ite HourResult.battery_discharge_mw]
  rw [if_neg (not_le.mpr hshort)]
  by_cases hgt : dv.e_battery_mwh > 0 ∧ soc > socMin dv cfg
  · rw [if_pos hgt]
  · push_neg at hgt
    have heq : soc = socMin dv cfg := le_antisymm (hgt hb) hsoc
    rw [if_neg]
    · have hz : (soc - socMin dv cfg) * dv.e_battery_mwh = 0 := by rw [heq]; ring
      rw [hz, min_eq_right hpmax, min_eq_right (by linarith)]
    · intro hand
      exact absurd hand.2 (not_lt.mpr (hgt hb))

/-- C3 counterexample to the claim as stated: battery 1 MWh, c-rate 10,
`dod_max = 0.8` (floor 0.2), efficiency 0.5, one 5 MW shortfall hour from
SOC 0.5. The simulator discharges `min(5, 10, (0.5−0.2)×1) = 0.3` MW,
while the claimed formula with the efficiency factor gives
`min(5, 10, (0.5−0.2)×1×0.5) = 0.15`. -/
theorem C3_discharge_formula_counterexample :
    simTrace ⟨0, 0, 1, 0⟩ ⟨1 / 2, 10, 4 / 5, 2 / 5⟩ [⟨5, 0, 0, 0⟩] =
      [⟨0, 3 / 10, 0, 0, 47 / 10, 1 / 5⟩] ∧
    ¬((3 : ℚ) / 10 = min 5 (min ((1 : ℚ) * 10) ((1 / 2 - 1 / 5) * 1 * (1 / 2)))) := by
  constructor
  · norm_num [simTrace, simulate, simStep, renewableGen, pvGen, windGen, socMin, batteryPMax,
      min_def, max_def]
  · norm_num [min_def]

/-- C3 witness: the amended discharge formula instantiated at a concrete
shortfall hour with the repository's battery parameters. -/
theorem C3_discharge_formula_witness :
    (0 : ℚ) < (⟨0, 0, 1, 0⟩ : DecisionVars).e_battery_mwh ∧
      (0 : ℚ) ≤ (⟨9 / 10, 1 / 4, 4 / 5, 2 / 5⟩ : SimConfig).battery_c_rate ∧
      socMin ⟨0, 0, 1, 0⟩ ⟨9 / 10, 1 / 4, 4 / 5, 2 / 5⟩ ≤ 1 / 2 ∧
      renewableGen ⟨0, 0, 1, 0⟩ ⟨5, 0, 0, 0⟩ < (⟨5, 0, 0, 0⟩ : HourData).load_mw ∧
      (simStep ⟨0, 0, 1, 0⟩ ⟨9 / 10, 1 / 4, 4 / 5, 2 / 5⟩ (1 / 2)
          ⟨5, 0, 0, 0⟩).battery_discharge_mw =
        min ((⟨5, 0, 0, 0⟩ : HourData).load_mw - renewableGen ⟨0, 0, 1, 0⟩ ⟨5, 0, 0, 0⟩)
          (min (batteryPMax ⟨0, 0, 1, 0⟩ ⟨9 / 10, 1 / 4, 4 / 5, 2 / 5⟩)
            ((1 / 2 - socMin ⟨0, 0, 1, 0⟩ ⟨9 / 10, 1 / 4, 4 / 5, 2 / 5⟩) *
              (⟨0, 0, 1, 0⟩ : DecisionVars).e_battery_mwh)) :=
  ⟨by norm_num, by norm_num, by norm_num [socMin],
    by norm_num [renewableGen, pvGen, windGen, max_def],
    C3_discharge_formula ⟨0, 0, 1, 0⟩ ⟨9 / 10, 1 / 4, 4 / 5, 2 / 5⟩ (1 / 2) ⟨5, 0, 0, 0⟩
      (by norm_num) (by norm_num) (by norm_num [socMin])
      (by norm_num [renewableGen, pvGen, windGen, max_def])⟩

/-! ## Claim C4 — error policy of the objective evaluator -/

/-- C4 (amended): the objective evaluator performs no validation and
never raises a hard error: `objective_npc` returns normally for every
input (including inputs whose NPC is ≤ 0), `objective_lpsp` returns the
unchecked ratio (including values outside `[0,1]`), and
`objective_gini_theja` silently clamps its result into `[0,1]` rather
than raising. (The claimed hard errors do not exist in the code.) -/
theorem C4_no_hard_error :
    (∀ s : NpcSystem, ∃ v, objective_npc s = Except.ok v) ∧
    (∀ d : DispatchResults, ∃ v, objective_lpsp d = Except.ok v) ∧
    (∀ (capture : List ℚ) (n : ℕ) (re load : ℚ),
      ∃ v, objective_gini_theja capture n re load = Except.ok v ∧ 0 ≤ v ∧ v ≤ 1) := by
  refine ⟨fun s => ⟨_, rfl⟩, fun d => ?_, fun capture n re load => ?_⟩
  · unfold objective_lpsp
    split_ifs <;> exact ⟨_, rfl⟩
  · simp only [objective_gini_theja]
    split_ifs
    all_goals first
      | exact ⟨1, rfl, by norm_num, by norm_num⟩
      | exact ⟨_, rfl, le_max_left _ _, max_le (by norm_num) (min_le_right _ _)⟩

/-- C4 counterexample to the claim as stated: an NPC of −5 is returned
normally (not raised), and an LPSP of 2 (outside `[0,1]` with no designed
clamp in `objective_lpsp`) is returned normally. -/
theorem C4_no_hard_error_counterexample :
    objective_npc ⟨-5, 0, 0, 0, 0, 0, 1⟩ = Except.ok (-5) ∧ (-5 : ℚ) ≤ 0 ∧
      objective_lpsp ⟨2, 1⟩ = Except.ok 2 ∧ ¬((2 : ℚ) ≤ 1) := by
  refine ⟨?_, by norm_num, ?_, by norm_num⟩
  · norm_num [objective_npc]
  · norm_num [objective_lpsp]

/-! ## Claim C5 — renewable-capacity constraint under validation -/

/-- C5 (amended): `validate_solution` calls `constraint_renewable_cap_v4`
without the `enable_renewable_cap` argument, so its default `False`
applies and the `renewable_cap` entry of the constraint vector is `0` for
every candidate; only when the flag is explicitly enabled does the
function return `max(installed_renewable_mw − policy_fraction × avg_load, 0)`
with `installed_renewable_mw = pv_kw/1000 + wind_mw`. (The claim as
stated — validation computes the `max(...)` formula, disabled via a
policy flag — fails: the switch is a function default, never passed, and
always off during validation.) -/
theorem C5_renewable_cap :
    (∀ (x : XVars) (bounds : BoundsCfg) (area_params : AreaParams) (lpsp : ℚ)
        (policy : Policy) (grid : GridLimits) (rf ll tol : ℚ),
      (validate_solution x bounds area_params lpsp policy grid rf ll tol).2.2.renewable_cap
        = 0) ∧
    (∀ (sys : RenewableSys) (policy : Policy),
      constraint_renewable_cap_v4 sys policy true =
        max (sys.p_pv_installed_kw / 1000 + sys.p_wind_installed_mw -
          policy.renewable_fraction_max * sys.p_load_avg_mw) 0) := by
  exact ⟨fun _ _ _ _ _ _ _ _ _ => rfl, fun _ _ => rfl⟩

/-- C5 counterexample to the claim as stated: a candidate with 1000 kW of
PV and 10 MW of wind against a 3.35 MW average load and a 20% policy
fraction has `max(installed − fraction×avg_load, 0) = 10.33`, yet
validation reports a `renewable_cap` violation of `0`. -/
theorem C5_renewable_cap_counterexample :
    (validate_solution ⟨1000, 10, 0, 0, 0, 0, 67 / 20, 1000, 10, 0, 0, false⟩
        ⟨(0, 10000), (0, 5), (0, 100), (0, 10)⟩ ⟨2, 186050, 10, 500000, 3000000⟩ 0 ⟨1 / 5⟩
        ⟨0, 0⟩ (3 / 20) (1 / 20) (1 / 1000000)).2.2.renewable_cap = 0 ∧
      max ((1000 : ℚ) / 1000 + 10 - 1 / 5 * (67 / 20)) 0 = 1033 / 100 ∧
      (0 : ℚ) ≠ 1033 / 100 := by
  refine ⟨rfl, ?_, by norm_num⟩
  norm_num [max_def]

/-! ## Claim C6 — convergence controller early stop -/

/-- Processing a flat positive hypervolume sequence from generation
`g ∈ [2, 21]` with best `⟨c, 1⟩` recorded at generation 1 raises the stop
signal exactly at generation 21, provided the sequence reaches it. -/
theorem runFrom_flat_pos (c : ℚ) (hc : 0 < c) :
    ∀ (m g : ℕ), 2 ≤ g → g ≤ 21 → 22 ≤ g + m →
      runFrom 20 (1 / 1000) ⟨c, 1⟩ g (List.replicate m c) = some 21 := by
  intro m
  induction m with
  | zero => intro g h2 h21 h22; omega
  | succ m ih =>
    intro g h2 h21 h22
    rw [List.replicate_succ]
    have hno : ¬(c > c * (1 + 1 / 1000)) := by linarith
    simp only [runFrom, notifyStep, if_neg hno]
    by_cases hg : g = 21
    · subst hg
      norm_num
    · rw [if_neg (by simpa using (by omega : ¬(g - 1 ≥ 20)))]
      exact ih (g + 1) (by omega) (by omega) (by omega)

/-- Processing a flat all-zero hypervolume sequence (the initial best of 0
is never beaten) from generation `g ∈ [1, 20]` raises the stop signal
exactly at generation 20, provided the sequence reaches it. -/
theorem runFrom_flat_zero :
    ∀ (m g : ℕ), 1 ≤ g → g ≤ 20 → 21 ≤ g + m →
      runFrom 20 (1 / 1000) ⟨0, 0⟩ g (List.replicate m 0) = some 20 := by
  intro m
  induction m with
  | zero => intro g h1 h20 h21; omega
  | succ m ih =>
    intro g h1 h20 h21
    rw [List.replicate_succ]
    have hno : ¬((0 : ℚ) > 0 * (1 + 1 / 1000)) := by norm_num
    simp only [runFrom, notifyStep, if_neg hno]
    by_cases hg : g = 20
    · subst hg
      norm_num
    · rw [if_neg (by simpa using (by omega : ¬(g - 0 ≥ 20)))]
      exact ih (g + 1) (by omega) (by omega) (by omega)

/-- A fresh callback fed a flat positive hypervolume sequence of length
`20 + k` (`k ≥ 1`) stops at exactly generation 21: generation 1 improves
on the initial best of 0, and stagnation is counted from there. -/
theorem stopGeneration_flat_pos (c : ℚ) (hc : 0 < c) (k : ℕ) (hk : 1 ≤ k) :
    stopGeneration 20 (1 / 1000) (List.replicate (20 + k) c) = some 21 := by
  have h20 : 20 + k = (19 + k) + 1 := by omega
  rw [stopGeneration, h20, List.replicate_succ]
  have hyes : c > 0 * (1 + 1 / 1000) := by linarith
  simp only [runFrom, notifyStep, if_pos hyes]
  rw [if_neg (by simp)]
  exact runFrom_flat_pos c hc (19 + k) 2 (by omega) (by omega) (by omega)

/-- A fresh callback fed a flat all-zero hypervolume sequence of length
`20 + k` stops at exactly generation 20. -/
theorem stopGeneration_flat_zero (k : ℕ) :
    stopGeneration 20 (1 / 1000) (List.replicate (20 + k) 0) = some 20 := by
  rw [stopGeneration]
  exact runFrom_flat_zero (20 + k) 1 (by omega) (by omega) (by omega)

/-- C6 (amended): with `stagnation_generations = 20` and tolerance 0.001
the controller updates its best hypervolume (resetting stagnation) exactly
when `current_hv > best_hv × (1 + tol)`; a flat hypervolume sequence at a
positive value `c` of length `20 + k` (`k ≥ 1`) emits the
early-termination signal at exactly generation 21 — generation 1 counts
as an improvement over the initial best of 0, so stagnation is measured
from there — while a flat sequence at 0 of length `20 + k` stops at
exactly generation 20. (The claim as stated — STOPPED at exactly
generation 20 for every flat sequence of length `20 + k`, `k ≥ 0` — fails
for positive flat sequences.) -/
theorem C6_early_stop :
    (∀ (sg : ℕ) (tol hv : ℚ) (s : CbState) (gen : ℕ),
      (notifyStep sg tol s gen hv).1 =
        if hv > s.best_hv * (1 + tol) then CbState.mk hv gen else s) ∧
    (∀ c : ℚ, 0 < c → ∀ k : ℕ, 1 ≤ k →
      stopGeneration 20 (1 / 1000) (List.replicate (20 + k) c) = some 21) ∧
    (∀ k : ℕ, stopGeneration 20 (1 / 1000) (List.replicate (20 + k) 0) = some 20) := by
  exact ⟨fun sg tol hv s gen => rfl, stopGeneration_flat_pos, stopGeneration_flat_zero⟩

/-- C6 counterexample to the claim as stated: a flat hypervolume sequence
at value 1 of length 21 (`k = 1`) emits the early-termination signal at
generation 21, not at generation 20. -/
theorem C6_early_stop_counterexample :
    stopGeneration 20 (1 / 1000) (List.replicate 21 1) = some 21 ∧ (21 : ℕ) ≠ 20 :=
  ⟨stopGeneration_flat_pos 1 (by norm_num) 1 (le_refl 1), by decide⟩

/-- C6 witness: the amended stop generation instantiated at the flat
positive sequence of value 1 and length 21. -/
theorem C6_early_stop_witness :
    (0 : ℚ) < 1 ∧ 1 ≤ 1 ∧
      stopGeneration 20 (1 / 1000) (List.replicate (20 + 1) 1) = some 21 :=
  ⟨by norm_num, le_refl 1, C6_early_stop.2.1 1 (by norm_num) 1 (le_refl 1)⟩

/-! ## Claim C7 — LPSP value and range -/

/-- Renewable generation is nonnegative whenever the wind capacity and the
hour's wind capacity factor are (PV generation is clamped at zero by the
source). -/
theorem renewableGen_nonneg (dv : DecisionVars) (h : HourData) (hw : 0 ≤ dv.n_wind_mw)
    (hcf : 0 ≤ h.wind_cf) : 0 ≤ renewableGen dv h :=
  add_nonneg (le_max_right _ _) (mul_nonneg hw hcf)

/-- The hourly deficit recorded by the dispatch step lies between 0 and
the hour's load, for nonnegative c-rate, renewables and load. -/
theorem simStep_deficit_bounds (dv : DecisionVars) (cfg : SimConfig) (soc : ℚ) (h : HourData)
    (hc : 0 ≤ cfg.battery_c_rate) (hre : 0 ≤ renewableGen dv h) (hl : 0 ≤ h.load_mw) :
    0 ≤ (simStep dv cfg soc h).deficit_mw ∧ (simStep dv cfg soc h).deficit_mw ≤ h.load_mw := by
  have hpmax : 0 ≤ batteryPMax dv cfg := by
    rw [batteryPMax]
    split_ifs with hb
    · exact mul_nonneg hb.le hc
    · exact le_refl 0
  simp only [simStep, apply_ite HourResult.deficit_mw]
  by_cases h1 : renewableGen dv h ≥ h.load_mw
  · rw [if_pos h1]
    split_ifs <;> exact ⟨le_refl 0, hl⟩
  · rw [if_neg h1]
    have hs0 : 0 < h.load_mw - renewableGen dv h := by linarith [not_le.mp h1]
    have hdis : 0 ≤ (if dv.e_battery_mwh > 0 ∧ soc > socMin dv cfg then
          min (h.load_mw - renewableGen dv h)
            (min (batteryPMax dv cfg) ((soc - socMin dv cfg) * dv.e_battery_mwh))
        else 0) ∧
        (if dv.e_battery_mwh > 0 ∧ soc > socMin dv cfg then
          min (h.load_mw - renewableGen dv h)
            (min (batteryPMax dv cfg) ((soc - socMin dv cfg) * dv.e_battery_mwh))
        else 0) ≤ h.load_mw - renewableGen dv h := by
      split_ifs with h3
      · exact ⟨le_min hs0.le (le_min hpmax (mul_nonneg (by linarith [h3.2]) h3.1.le)),
          min_le_left _ _⟩
      · exact ⟨le_refl 0, hs0.le⟩
    set dis := (if dv.e_battery_mwh > 0 ∧ soc > socMin dv cfg then
          min (h.load_mw - renewableGen dv h)
            (min (batteryPMax dv cfg) ((soc - socMin dv cfg) * dv.e_battery_mwh))
        else 0) with hdisdef
    have hdie : 0 ≤ (if h.load_mw - renewableGen dv h - dis > 0 ∧ dv.p_diesel_mw > 0 then
          min (h.load_mw - renewableGen dv h - dis) dv.p_diesel_mw else 0) ∧
        (if h.load_mw - renewableGen dv h - dis > 0 ∧ dv.p_diesel_mw > 0 then
          min (h.load_mw - renewableGen dv h - dis) dv.p_diesel_mw else 0) ≤
          h.load_mw - renewableGen dv h - dis := by
      split_ifs with h4
      · exact ⟨le_min h4.1.le h4.2.le, min_le_left _ _⟩
      · refine ⟨le_refl 0, ?_⟩
        linarith [hdis.2]
    set diesel := (if h.load_mw - renewableGen dv h - dis > 0 ∧ dv.p_diesel_mw > 0 then
          min (h.load_mw - renewableGen dv h - dis) dv.p_diesel_mw else 0) with hdiedef
    split_ifs with h5
    · constructor <;> linarith [hdis.1, hdie.1]
    · exact ⟨le_refl 0, hl⟩

/-- The total deficit of a simulation lies between 0 and the total load,
for a profile with nonnegative loads and wind capacity factors. -/
theorem simulate_deficit_sum_bounds (dv : DecisionVars) (cfg : SimConfig)
    (hc : 0 ≤ cfg.battery_c_rate) (hw : 0 ≤ dv.n_wind_mw) :
    ∀ profile : List HourData, (∀ h ∈ profile, 0 ≤ h.load_mw ∧ 0 ≤ h.wind_cf) →
      ∀ soc : ℚ, 0 ≤ totalDeficit (simulate dv cfg soc profile) ∧
        totalDeficit (simulate dv cfg soc profile) ≤ totalLoad profile := by
  intro profile
  induction profile with
  | nil => intro _ soc; simp [simulate, totalDeficit, totalLoad]
  | cons h rest ih =>
    intro hprof soc
    have hh := hprof h (List.mem_cons_self h rest)
    have hstep := simStep_deficit_bounds dv cfg soc h hc
      (renewableGen_nonneg dv h hw hh.2) hh.1
    have htail := ih (fun x hx => hprof x (List.mem_cons_of_mem h hx))
      ((simStep dv cfg soc h).soc)
    simp only [simulate, totalDeficit, totalLoad, List.map_cons, List.sum_cons] at *
    constructor <;> linarith [hstep.1, hstep.2, htail.1, htail.2]

/-- C7 (amended): the LPSP computed by the simulator equals
`total_deficit_mwh / total_load_mwh` when the total load is positive and
`0` otherwise, with **no** clamping anywhere; for simulator-produced
results under a profile with nonnegative loads and wind capacity factors
(and nonnegative wind capacity and battery c-rate) the ratio already lies
in `[0,1]`, and `objective_lpsp` returns `0` whenever the total load is
exactly `0`. (The claim's "clamped to [0,1]" fails: no clamp exists in
`objective_lpsp` or in `simulate_system_fast`.) -/
theorem C7_lpsp_value (dv : DecisionVars) (cfg : SimConfig) (profile : List HourData)
    (hc : 0 ≤ cfg.battery_c_rate) (hw : 0 ≤ dv.n_wind_mw)
    (hprof : ∀ h ∈ profile, 0 ≤ h.load_mw ∧ 0 ≤ h.wind_cf) :
    lpspValue dv cfg profile =
      (if totalLoad profile > 0 then totalDeficit (simTrace dv cfg profile) / totalLoad profile
        else 0) ∧
    0 ≤ lpspValue dv cfg profile ∧ lpspValue dv cfg profile ≤ 1 ∧
    ∀ d : DispatchResults, d.total_load_mwh = 0 → objective_lpsp d = Except.ok 0 := by
  have hsum := simulate_deficit_sum_bounds dv cfg hc hw profile hprof (1 / 2)
  refine ⟨rfl, ?_, ?_, fun d hd => by simp [objective_lpsp, hd]⟩
  · rw [lpspValue]
    split_ifs with hL
    · exact div_nonneg hsum.1 hL.le
    · exact le_refl 0
  · rw [lpspValue]
    split_ifs with hL
    · rw [div_le_one hL]; exact hsum.2
    · norm_num

/-- C7 counterexample to the claim as stated: on a dispatch result with
deficit 2 and load 1 the claimed clamped value is 1, but `objective_lpsp`
returns the raw ratio 2. -/
theorem C7_lpsp_value_counterexample :
    objective_lpsp ⟨2, 1⟩ = Except.ok 2 ∧ min (max ((2 : ℚ) / 1) 0) 1 = 1 ∧ (2 : ℚ) ≠ 1 := by
  refine ⟨by norm_num [objective_lpsp], by norm_num, by norm_num⟩

/-- C7 witness: the amended LPSP range instantiated at a concrete
all-deficit scenario (LPSP = 1). -/
theorem C7_lpsp_value_witness :
    (0 : ℚ) ≤ 1 / 4 ∧ (0 : ℚ) ≤ 0 ∧
      (∀ h ∈ ([⟨5, 0, 0, 0⟩] : List HourData), 0 ≤ h.load_mw ∧ 0 ≤ h.wind_cf) ∧
      0 ≤ lpspValue ⟨0, 0, 0, 0⟩ ⟨9 / 10, 1 / 4, 4 / 5, 2 / 5⟩ [⟨5, 0, 0, 0⟩] ∧
      lpspValue ⟨0, 0, 0, 0⟩ ⟨9 / 10, 1 / 4, 4 / 5, 2 / 5⟩ [⟨5, 0, 0, 0⟩] ≤ 1 :=
  have hprof : ∀ h ∈ ([⟨5, 0, 0, 0⟩] : List HourData), 0 ≤ h.load_mw ∧ 0 ≤ h.wind_cf := by
    intro x hx
    rw [List.mem_singleton] at hx
    subst hx
    exact ⟨by norm_num, le_refl 0⟩
  ⟨by norm_num, le_refl 0, hprof,
    (C7_lpsp_value ⟨0, 0, 0, 0⟩ ⟨9 / 10, 1 / 4, 4 / 5, 2 / 5⟩ [⟨5, 0, 0, 0⟩] (by norm_num)
      (le_refl 0) hprof).2.1,
    (C7_lpsp_value ⟨0, 0, 0, 0⟩ ⟨9 / 10, 1 / 4, 4 / 5, 2 / 5⟩ [⟨5, 0, 0, 0⟩] (by norm_num)
      (le_refl 0) hprof).2.2.1⟩

/-! ## Claim C8 — net present cost formula -/

/-- C8 (amended): for all nonnegative cost inputs, any discount rate,
lifetime and **nonzero** replacement year, the NPC equals
`capital + fuel_annual×PWF + om_annual×PWF + replacement/(1+r)^replacement_year`
with `PWF = (1−(1+r)^−L)/r` for `r ≠ 0` and `PWF = L` for `r = 0`. (The
claim as stated also covers `replacement_year = 0`, where the Python
truthiness test `if replacement_cost and replacement_year:` silently
drops the replacement term.) -/
theorem C8_npc_formula (s : NpcSystem) (h1 : 0 ≤ s.capital_cost_usd)
    (h2 : 0 ≤ s.fuel_cost_annual_usd) (h3 : 0 ≤ s.om_cost_annual_usd)
    (h4 : 0 ≤ s.replacement_cost_usd) (hy : s.replacement_year ≠ 0) :
    objective_npc s = Except.ok (npcSpecFormula s) := by
  simp only [objective_npc, npcSpecFormula]
  rcases eq_or_ne s.replacement_cost_usd 0 with hr | hr
  · simp [hr]
  · simp [hr, hy]

/-- C8 counterexample to the claim as stated: with `replacement_year = 0`
and a replacement cost of 5, the code returns 1 (the replacement term is
dropped by the truthiness test) while the claimed formula gives
`1 + 5/(1+0)^0 = 6`. -/
theorem C8_npc_formula_counterexample :
    objective_npc ⟨1, 0, 0, 5, 0, 0, 1⟩ = Except.ok 1 ∧
      npcSpecFormula ⟨1, 0, 0, 5, 0, 0, 1⟩ = 6 ∧ (1 : ℚ) ≠ 6 := by
  refine ⟨?_, ?_, by norm_num⟩
  · norm_num [objective_npc]
  · norm_num [npcSpecFormula]

/-- C8 witness: the amended NPC formula instantiated at concrete inputs
with zero discount rate, lifetime 10 and replacement in year 5. -/
theorem C8_npc_formula_witness :
    (0 : ℚ) ≤ 1 ∧ (0 : ℚ) ≤ 2 ∧ (0 : ℚ) ≤ 3 ∧ (0 : ℚ) ≤ 4 ∧ (5 : ℕ) ≠ 0 ∧
      objective_npc ⟨1, 2, 3, 4, 5, 0, 10⟩ =
        Except.ok (npcSpecFormula ⟨1, 2, 3, 4, 5, 0, 10⟩) :=
  ⟨by norm_num, by norm_num, by norm_num, by norm_num, by norm_num,
    C8_npc_formula ⟨1, 2, 3, 4, 5, 0, 10⟩ (by norm_num) (by norm_num) (by norm_num)
      (by norm_num) (by norm_num)⟩

/-! ## Claim C9 — LPSP is antitone in diesel capacity -/

/-- The post-hour state of charge does not depend on the diesel capacity:
battery decisions are taken before diesel is dispatched. -/
theorem simStep_soc_diesel_invariant (pv wind batt d1 d2 : ℚ) (cfg : SimConfig) (soc : ℚ)
    (h : HourData) :
    (simStep ⟨pv, wind, batt, d2⟩ cfg soc h).soc =
      (simStep ⟨pv, wind, batt, d1⟩ cfg soc h).soc := by
  simp only [simStep, renewableGen, pvGen, windGen, socMin, batteryPMax,
    apply_ite HourResult.soc]

/-- Shortfall-hour arithmetic: the residual deficit after serving a
remaining shortfall `s` with up to `d` MW of diesel is antitone in `d`. -/
theorem deficit_branch_antitone (s d1 d2 : ℚ) (hd : d1 ≤ d2) :
    (if s - (if s > 0 ∧ d2 > 0 then min s d2 else 0) > 0 then
        s - (if s > 0 ∧ d2 > 0 then min s d2 else 0) else 0) ≤
      (if s - (if s > 0 ∧ d1 > 0 then min s d1 else 0) > 0 then
        s - (if s > 0 ∧ d1 > 0 then min s d1 else 0) else 0) := by
  by_cases h2c : s > 0 ∧ d2 > 0
  · rw [if_pos h2c]
    by_cases h1c : s > 0 ∧ d1 > 0
    · rw [if_pos h1c]
      have hm : min s d1 ≤ min s d2 := min_le_min (le_refl s) hd
      have h2s : min s d2 ≤ s := min_le_left _ _
      split_ifs <;> linarith
    · rw [if_neg h1c]
      have hnn : 0 ≤ min s d2 := le_min h2c.1.le h2c.2.le
      have h2s : min s d2 ≤ s := min_le_left _ _
      split_ifs <;> linarith
  · rw [if_neg h2c]
    by_cases h1c : s > 0 ∧ d1 > 0
    · exact absurd ⟨h1c.1, lt_of_lt_of_le h1c.2 hd⟩ h2c
    · rw [if_neg h1c]

/-- The hourly deficit is antitone in the diesel capacity, all other
decision variables, the configuration, the state of charge and the hour
being fixed. -/
theorem simStep_deficit_antitone (pv wind batt d1 d2 : ℚ) (cfg : SimConfig) (soc : ℚ)
    (h : HourData) (hd : d1 ≤ d2) :
    (simStep ⟨pv, wind, batt, d2⟩ cfg soc h).deficit_mw ≤
      (simStep ⟨pv, wind, batt, d1⟩ cfg soc h).deficit_mw := by
  have e1 : renewableGen ⟨pv, wind, batt, d2⟩ h = renewableGen ⟨pv, wind, batt, d1⟩ h := rfl
  have e2 : socMin ⟨pv, wind, batt, d2⟩ cfg = socMin ⟨pv, wind, batt, d1⟩ cfg := rfl
  have e3 : batteryPMax ⟨pv, wind, batt, d2⟩ cfg = batteryPMax ⟨pv, wind, batt, d1⟩ cfg := rfl
  have e4 : (⟨pv, wind, batt, d2⟩ : DecisionVars).e_battery_mwh = batt := rfl
  have e5 : (⟨pv, wind, batt, d1⟩ : DecisionVars).e_battery_mwh = batt := rfl
  have e6 : (⟨pv, wind, batt, d2⟩ : DecisionVars).p_diesel_mw = d2 := rfl
  have e7 : (⟨pv, wind, batt, d1⟩ : DecisionVars).p_diesel_mw = d1 := rfl
  simp only [simStep, apply_ite HourResult.deficit_mw, e1, e2, e3, e4, e5, e6, e7, ite_self]
  by_cases hre : renewableGen ⟨pv, wind, batt, d1⟩ h ≥ h.load_mw
  · simp only [if_pos hre]
    exact le_refl 0
  · simp only [if_neg hre]
    exact deficit_branch_antitone _ d1 d2 hd

/-- The total deficit of a simulation is antitone in the diesel capacity,
from any initial state of charge. -/
theorem simulate_deficit_diesel_antitone (pv wind batt d1 d2 : ℚ) (cfg : SimConfig)
    (hd : d1 ≤ d2) :
    ∀ (profile : List HourData) (soc : ℚ),
      totalDeficit (simulate ⟨pv, wind, batt, d2⟩ cfg soc profile) ≤
        totalDeficit (simulate ⟨pv, wind, batt, d1⟩ cfg soc profile) := by
  intro profile
  induction profile with
  | nil => intro soc; simp [simulate, totalDeficit]
  | cons h rest ih =>
    intro soc
    have h1 := simStep_deficit_antitone pv wind batt d1 d2 cfg soc h hd
    have h2 := simStep_soc_diesel_invariant pv wind batt d1 d2 cfg soc h
    have h3 := ih ((simStep ⟨pv, wind, batt, d1⟩ cfg soc h).soc)
    simp only [simulate, totalDeficit, List.map_cons, List.sum_cons] at *
    rw [h2]
    linarith

/-- C9 (confirmed): for any two decision vectors differing only in
`diesel_mw` with `d1 ≤ d2`, against the same hourly profile and
configuration, the simulator's LPSP for `d2` is at most the LPSP for
`d1`: increasing diesel capacity never increases LPSP. -/
theorem C9_lpsp_diesel_antitone (pv wind batt d1 d2 : ℚ) (cfg : SimConfig)
    (profile : List HourData) (hd : d1 ≤ d2) :
    lpspValue ⟨pv, wind, batt, d2⟩ cfg profile ≤ lpspValue ⟨pv, wind, batt, d1⟩ cfg profile := by
  rw [lpspValue, lpspValue]
  split_ifs with hL
  · rw [div_le_div_iff_of_pos_right hL]
    exact simulate_deficit_diesel_antitone pv wind batt d1 d2 cfg hd profile (1 / 2)
  · exact le_refl 0

/-- C9 witness: diesel 1 MW versus 0 MW on a one-hour 5 MW load profile
with no other assets. -/
theorem C9_lpsp_diesel_antitone_witness :
    (0 : ℚ) ≤ 1 ∧
      lpspValue ⟨0, 0, 0, 1⟩ ⟨9 / 10, 1 / 4, 4 / 5, 2 / 5⟩ [⟨5, 0, 0, 0⟩] ≤
        lpspValue ⟨0, 0, 0, 0⟩ ⟨9 / 10, 1 / 4, 4 / 5, 2 / 5⟩ [⟨5, 0, 0, 0⟩] :=
  ⟨by norm_num,
    C9_lpsp_diesel_antitone 0 0 0 0 1 ⟨9 / 10, 1 / 4, 4 / 5, 2 / 5⟩ [⟨5, 0, 0, 0⟩]
      (by norm_num)⟩

/-! ## Claim C10 — data cache reload guard -/

/-- C10 (confirmed): re-initialising the cache with any configuration
whose `load_profile_path` equals the one previously initialised leaves
the whole cache state — all four arrays and the stored hash — unchanged,
even if the configuration's `solar_cf_path` or `wind_cf_path` differ from
those originally loaded: the guard hashes only `load_profile_path`. -/
theorem C10_cache_frame (env : DataEnv) (cfg1 cfg2 : DCConfig) (s0 : DataCache)
    (hpath : cfg2.load_profile_path = cfg1.load_profile_path) :
    DataCache.init env cfg2 (DataCache.init env cfg1 s0) = DataCache.init env cfg1 s0 := by
  simp only [DataCache.init]
  split_ifs with hc1 hc2 hc3
  · rfl
  · exact absurd ⟨by rw [hpath]; exact hc1.1, hc1.2⟩ hc2
  · rfl
  · exact absurd ⟨by simp [hpath], by simp⟩ hc3

/-- C10 witness: a concrete environment and two configurations sharing
the load path but with different solar and wind paths; the second
`initialize` is a no-op. -/
theorem C10_cache_frame_witness :
    (DCConfig.mk "load.csv" "solar_b.csv" "wind_b.csv").load_profile_path =
      (DCConfig.mk "load.csv" "solar_a.csv" "wind_a.csv").load_profile_path ∧
    DataCache.init ⟨fun _ => [1], fun _ => ([2], [3]), fun _ => [4]⟩
        ⟨"load.csv", "solar_b.csv", "wind_b.csv"⟩
        (DataCache.init ⟨fun _ => [1], fun _ => ([2], [3]), fun _ => [4]⟩
          ⟨"load.csv", "solar_a.csv", "wind_a.csv"⟩ ⟨none, none, none, none, none⟩) =
      DataCache.init ⟨fun _ => [1], fun _ => ([2], [3]), fun _ => [4]⟩
        ⟨"load.csv", "solar_a.csv", "wind_a.csv"⟩ ⟨none, none, none, none, none⟩ :=
  ⟨rfl, C10_cache_frame ⟨fun _ => [1], fun _ => ([2], [3]), fun _ => [4]⟩
    ⟨"load.csv", "solar_a.csv", "wind_a.csv"⟩ ⟨"load.csv", "solar_b.csv", "wind_b.csv"⟩
    ⟨none, none, none, none, none⟩ rfl⟩

end Microgrid
